import Mathlib

/-!
Verification development for the `sual-bot` Challonge API client
(`challonge/models.py`, `challonge/challonge.py`).

The pydantic resource models become Lean structures with a `parseX` function
(pydantic `parse_obj`: read each declared field from the raw JSON object by its
wire alias, substitute the declared default when the key is absent, fail on a
missing required field or a value of the wrong kind, ignore unknown keys) and a
`serializeX` function (pydantic `.dict(by_alias=True)`: emit every field under
its wire alias, `null` for fields holding `None`).  The client's `__init__`,
`_request` and per-endpoint response handling become pure functions over an
explicit JSON / HTTP-response datatype.
-/

set_option maxHeartbeats 1000000

/-- JSON values as produced by Python's `json` decoder: `null`, booleans,
integers and floats (kept separate, as Python does), strings, arrays and
objects (key-value lists in document order). Floats are modelled as rationals;
the client only passes them through, no arithmetic is performed. -/
inductive Json where
  | null : Json
  | bool : Bool → Json
  | int : Int → Json
  | float : Rat → Json
  | str : String → Json
  | arr : List Json → Json
  | obj : List (String × Json) → Json

/-- Key lookup in a JSON object, first match wins (Python dicts cannot hold
duplicate keys; for lists built by the embedding the first entry is the one
`resp["key"]` would see). -/
def jlookup (key : String) : List (String × Json) → Option Json
  | [] => none
  | (k, v) :: rest => if k = key then some v else jlookup key rest

@[simp] theorem jlookup_nil (key : String) : jlookup key [] = none := rfl

@[simp] theorem jlookup_cons (key k : String) (v : Json) (rest : List (String × Json)) :
    jlookup key ((k, v) :: rest) = if k = key then some v else jlookup key rest := rfl

theorem jlookup_cons_ne {k key : String} (h : k ≠ key) (v : Json) (rest : List (String × Json)) :
    jlookup key ((k, v) :: rest) = jlookup key rest := by
  simp [jlookup, h]

/-- Python truthiness of a decoded JSON value (`if not resp:`). -/
def Json.pyFalsy : Json → Bool
  | .null => true
  | .bool b => !b
  | .int n => n == 0
  | .float q => q == 0
  | .str s => s == ""
  | .arr xs => xs.isEmpty
  | .obj kvs => kvs.isEmpty

/-- Python `None` test on a JSON value. -/
def Json.isNull : Json → Bool
  | .null => true
  | _ => false

/-- Validation failures raised by the pydantic models (`ValidationError`):
a declared required field absent, a field value of the wrong primitive kind,
or a model applied to something that is not a JSON object. -/
inductive SchemaError where
  | missingField (field : String)
  | wrongKind (field : String)
  | notAnObject

/-- The failure kinds the client can surface, one constructor per Python
exception class reachable from the embedded code. -/
inductive ClientError where
  | configurationError (msg : String)
  | transportError
  | apiError (status : Nat) (rawBody : String)
  | jsonDecodeError
  | schema (e : SchemaError)
  | keyError (key : String)
  | typeError
  | unexpectedShape (msg : String)

/-- Effectful map over a list in the `Except` monad, stopping at the first
failure — the semantics of `[parse_obj(item) for item in items]`. -/
def exMapM {ε α β : Type} (f : α → Except ε β) : List α → Except ε (List β)
  | [] => .ok []
  | x :: xs => do
    let y ← f x
    let ys ← exMapM f xs
    pure (y :: ys)

@[simp] theorem exBind_ok {ε α β : Type} (a : α) (f : α → Except ε β) :
    (Except.ok a >>= f : Except ε β) = f a := rfl

@[simp] theorem exBind_error {ε α β : Type} (e : ε) (f : α → Except ε β) :
    (Except.error e >>= f : Except ε β) = .error e := rfl

@[simp] theorem exPure {ε α : Type} (a : α) : (pure a : Except ε α) = .ok a := rfl

@[simp] theorem exMap_ok {ε α β : Type} (g : α → β) (a : α) :
    (Except.ok a : Except ε α).map g = .ok (g a) := rfl

@[simp] theorem exMap_error {ε α β : Type} (g : α → β) (e : ε) :
    (Except.error e : Except ε α).map g = .error e := rfl

@[simp] theorem exMapError_ok {ε ε' α : Type} (g : ε → ε') (a : α) :
    (Except.ok a : Except ε α).mapError g = .ok a := rfl

@[simp] theorem exMapError_error {ε ε' α : Type} (g : ε → ε') (e : ε) :
    (Except.error e : Except ε α).mapError g = .error (g e) := rfl

/-! ### Field decoders (pydantic validators, one per declared field type) -/

/-- Required `str` field value. -/
def decStr (field : String) : Json → Except SchemaError String
  | .str s => .ok s
  | _ => .error (.wrongKind field)

/-- `Optional[str]` field value: explicit `null` means `None`. -/
def decOptStr (field : String) : Json → Except SchemaError (Option String)
  | .null => .ok none
  | .str s => .ok (some s)
  | _ => .error (.wrongKind field)

/-- `Optional[int]` field value. -/
def decOptInt (field : String) : Json → Except SchemaError (Option Int)
  | .null => .ok none
  | .int n => .ok (some n)
  | _ => .error (.wrongKind field)

/-- `Optional[bool]` field value. -/
def decOptBool (field : String) : Json → Except SchemaError (Option Bool)
  | .null => .ok none
  | .bool b => .ok (some b)
  | _ => .error (.wrongKind field)

/-- `Optional[float]` field value (an integer literal coerces to float). -/
def decOptFloat (field : String) : Json → Except SchemaError (Option Rat)
  | .null => .ok none
  | .float q => .ok (some q)
  | .int n => .ok (some (n : Rat))
  | _ => .error (.wrongKind field)

/-- `Optional[Dict[str, Any]]` field value: any JSON object passes through. -/
def decOptDict (field : String) : Json → Except SchemaError (Option (List (String × Json)))
  | .null => .ok none
  | .obj kvs => .ok (some kvs)
  | _ => .error (.wrongKind field)

/-- `int` element of a list field. -/
def decInt (field : String) : Json → Except SchemaError Int
  | .int n => .ok n
  | _ => .error (.wrongKind field)

/-- `List[int]` element of a list field (inner list of `score_in_sets`). -/
def decIntList (field : String) : Json → Except SchemaError (List Int)
  | .arr xs => exMapM (decInt field) xs
  | _ => .error (.wrongKind field)

/-- `Optional[List[α]]` field value, given the element validator. -/
def decOptList {α : Type} (field : String) (elem : Json → Except SchemaError α) :
    Json → Except SchemaError (Option (List α))
  | .null => .ok none
  | .arr xs => (exMapM elem xs).map some
  | _ => .error (.wrongKind field)

/-- `Optional[SubModel]` field value, given the sub-model's parser. -/
def decOptSub {α : Type} (sub : Json → Except SchemaError α) (j : Json) :
    Except SchemaError (Option α) :=
  if j.isNull then .ok none else (sub j).map some

/-- Read an optional field: absent key yields the declared default. -/
def optField {α : Type} (field : String) (dec : Json → Except SchemaError α) (dflt : α)
    (kvs : List (String × Json)) : Except SchemaError α :=
  match jlookup field kvs with
  | none => .ok dflt
  | some j => dec j

/-- Read a required field: absent key is a validation failure. -/
def reqField {α : Type} (field : String) (dec : Json → Except SchemaError α)
    (kvs : List (String × Json)) : Except SchemaError α :=
  match jlookup field kvs with
  | none => .error (.missingField field)
  | some j => dec j

/-! ### Encoders (pydantic `.dict(by_alias=True)` value side) -/

/-- Encode an optional value, `None` becoming JSON `null`. -/
def encOpt {α : Type} (f : α → Json) : Option α → Json
  | none => .null
  | some a => f a

@[simp] theorem decOptStr_enc (field : String) (o : Option String) :
    decOptStr field (encOpt Json.str o) = .ok o := by cases o <;> rfl

@[simp] theorem decOptInt_enc (field : String) (o : Option Int) :
    decOptInt field (encOpt Json.int o) = .ok o := by cases o <;> rfl

@[simp] theorem decOptBool_enc (field : String) (o : Option Bool) :
    decOptBool field (encOpt Json.bool o) = .ok o := by cases o <;> rfl

@[simp] theorem decOptFloat_enc (field : String) (o : Option Rat) :
    decOptFloat field (encOpt Json.float o) = .ok o := by cases o <;> rfl

@[simp] theorem decOptDict_enc (field : String) (o : Option (List (String × Json))) :
    decOptDict field (encOpt Json.obj o) = .ok o := by cases o <;> rfl

@[simp] theorem decStr_enc (field : String) (s : String) :
    decStr field (Json.str s) = .ok s := rfl

theorem exMapM_enc {ε α : Type} (dec : Json → Except ε α) (enc : α → Json)
    (h : ∀ a, dec (enc a) = .ok a) : ∀ l : List α, exMapM dec (l.map enc) = .ok l := by
  intro l
  induction l with
  | nil => rfl
  | cons x xs ih => simp [exMapM, h, ih]

theorem decOptList_enc {α : Type} (field : String) (dec : Json → Except SchemaError α)
    (enc : α → Json) (h : ∀ a, dec (enc a) = .ok a) (o : Option (List α)) :
    decOptList field dec (encOpt (fun l => Json.arr (l.map enc)) o) = .ok o := by
  cases o with
  | none => rfl
  | some l => simp [encOpt, decOptList, exMapM_enc dec enc h l]

@[simp] theorem decOptList_encInt (field : String) (o : Option (List Int)) :
    decOptList field (decInt field) (encOpt (fun l => Json.arr (l.map Json.int)) o) = .ok o :=
  decOptList_enc field (decInt field) Json.int (fun _ => rfl) o

@[simp] theorem decIntList_enc (field : String) (l : List Int) :
    decIntList field (Json.arr (l.map Json.int)) = .ok l := by
  simp [decIntList, exMapM_enc (decInt field) Json.int (fun _ => rfl) l]

@[simp] theorem decOptList_encIntList (field : String) (o : Option (List (List Int))) :
    decOptList field (decIntList field)
      (encOpt (fun l => Json.arr (l.map (fun il => Json.arr (il.map Json.int)))) o) = .ok o := by
  cases o with
  | none => rfl
  | some l =>
    simp only [encOpt, decOptList]
    rw [exMapM_enc (decIntList field) _ (fun il => decIntList_enc field il) l]
    rfl

/-! ### models.py: Timestamps -/

/-- `models.Timestamps`: common timestamp fields, all optional, wire names in
camelCase via the alias table. -/
structure Timestamps where
  created_at : Option String
  updated_at : Option String
  starts_at : Option String
  completed_at : Option String

def parseTimestamps : Json → Except SchemaError Timestamps
  | .obj kvs => do
    let created_at ← optField "createdAt" (decOptStr "createdAt") none kvs
    let updated_at ← optField "updatedAt" (decOptStr "updatedAt") none kvs
    let starts_at ← optField "startsAt" (decOptStr "startsAt") none kvs
    let completed_at ← optField "completedAt" (decOptStr "completedAt") none kvs
    pure ⟨created_at, updated_at, starts_at, completed_at⟩
  | _ => .error .notAnObject

def serializeTimestamps (t : Timestamps) : Json :=
  .obj [("createdAt", encOpt Json.str t.created_at),
        ("updatedAt", encOpt Json.str t.updated_at),
        ("startsAt", encOpt Json.str t.starts_at),
        ("completedAt", encOpt Json.str t.completed_at)]

theorem parseTimestamps_roundtrip (t : Timestamps) :
    parseTimestamps (serializeTimestamps t) = .ok t := by
  cases t
  simp [parseTimestamps, serializeTimestamps, optField]

@[simp] theorem decOptSub_timestamps (o : Option Timestamps) :
    decOptSub parseTimestamps (encOpt serializeTimestamps o) = .ok o := by
  cases o with
  | none => rfl
  | some t =>
    show decOptSub parseTimestamps (serializeTimestamps t) = .ok (some t)
    rw [decOptSub, show (serializeTimestamps t).isNull = false from rfl]
    simp [parseTimestamps_roundtrip t]

/-! ### models.py: MatchAttachment -/

/-- `models.MatchAttachmentOutput`: an attachment as read from the API. -/
structure MatchAttachmentOutput where
  id : Option Int
  url : Option String
  description : Option String
  timestamps : Option Timestamps

def parseMatchAttachmentOutput : Json → Except SchemaError MatchAttachmentOutput
  | .obj kvs => do
    let id ← optField "id" (decOptInt "id") none kvs
    let url ← optField "url" (decOptStr "url") none kvs
    let description ← optField "description" (decOptStr "description") none kvs
    let timestamps ← optField "timestamps" (decOptSub parseTimestamps) none kvs
    pure ⟨id, url, description, timestamps⟩
  | _ => .error .notAnObject

def serializeMatchAttachmentOutput (a : MatchAttachmentOutput) : Json :=
  .obj [("id", encOpt Json.int a.id),
        ("url", encOpt Json.str a.url),
        ("description", encOpt Json.str a.description),
        ("timestamps", encOpt serializeTimestamps a.timestamps)]

theorem parseMatchAttachmentOutput_roundtrip (a : MatchAttachmentOutput) :
    parseMatchAttachmentOutput (serializeMatchAttachmentOutput a) = .ok a := by
  cases a
  simp [parseMatchAttachmentOutput, serializeMatchAttachmentOutput, optField]

/-- `models.MatchAttachmentModel`: the full `{id, type, attributes}` resource. -/
structure MatchAttachmentModel where
  id : String
  type : String
  attributes : MatchAttachmentOutput

def parseMatchAttachmentModel : Json → Except SchemaError MatchAttachmentModel
  | .obj kvs => do
    let id ← reqField "id" (decStr "id") kvs
    let type ← reqField "type" (decStr "type") kvs
    let attributes ← reqField "attributes" parseMatchAttachmentOutput kvs
    pure ⟨id, type, attributes⟩
  | _ => .error .notAnObject

def serializeMatchAttachmentModel (m : MatchAttachmentModel) : Json :=
  .obj [("id", Json.str m.id),
        ("type", Json.str m.type),
        ("attributes", serializeMatchAttachmentOutput m.attributes)]

theorem parseMatchAttachmentModel_roundtrip (m : MatchAttachmentModel) :
    parseMatchAttachmentModel (serializeMatchAttachmentModel m) = .ok m := by
  cases m
  simp [parseMatchAttachmentModel, serializeMatchAttachmentModel, optField, reqField,
        parseMatchAttachmentOutput_roundtrip]

/-! ### models.py: Participants -/

/-- `models.ParticipantOutput`: a participant as read from the API. -/
structure ParticipantOutput where
  name : Option String
  seed : Option Int
  group_id : Option Int
  username : Option String
  final_rank : Option Int
  states : Option (List (String × Json))
  misc : Option String
  timestamps : Option Timestamps

def parseParticipantOutput : Json → Except SchemaError ParticipantOutput
  | .obj kvs => do
    let name ← optField "name" (decOptStr "name") none kvs
    let seed ← optField "seed" (decOptInt "seed") none kvs
    let group_id ← optField "group_id" (decOptInt "group_id") none kvs
    let username ← optField "username" (decOptStr "username") none kvs
    let final_rank ← optField "final_rank" (decOptInt "final_rank") none kvs
    let states ← optField "states" (decOptDict "states") none kvs
    let misc ← optField "misc" (decOptStr "misc") none kvs
    let timestamps ← optField "timestamps" (decOptSub parseTimestamps) none kvs
    pure ⟨name, seed, group_id, username, final_rank, states, misc, timestamps⟩
  | _ => .error .notAnObject

def serializeParticipantOutput (p : ParticipantOutput) : Json :=
  .obj [("name", encOpt Json.str p.name),
        ("seed", encOpt Json.int p.seed),
        ("group_id", encOpt Json.int p.group_id),
        ("username", encOpt Json.str p.username),
        ("final_rank", encOpt Json.int p.final_rank),
        ("states", encOpt Json.obj p.states),
        ("misc", encOpt Json.str p.misc),
        ("timestamps", encOpt serializeTimestamps p.timestamps)]

theorem parseParticipantOutput_roundtrip (p : ParticipantOutput) :
    parseParticipantOutput (serializeParticipantOutput p) = .ok p := by
  cases p
  simp [parseParticipantOutput, serializeParticipantOutput, optField]

/-- `models.ParticipantModel`: the full `{id, type, attributes}` resource. -/
structure ParticipantModel where
  id : String
  type : String
  attributes : ParticipantOutput

def parseParticipantModel : Json → Except SchemaError ParticipantModel
  | .obj kvs => do
    let id ← reqField "id" (decStr "id") kvs
    let type ← reqField "type" (decStr "type") kvs
    let attributes ← reqField "attributes" parseParticipantOutput kvs
    pure ⟨id, type, attributes⟩
  | _ => .error .notAnObject

def serializeParticipantModel (m : ParticipantModel) : Json :=
  .obj [("id", Json.str m.id),
        ("type", Json.str m.type),
        ("attributes", serializeParticipantOutput m.attributes)]

theorem parseParticipantModel_roundtrip (m : ParticipantModel) :
    parseParticipantModel (serializeParticipantModel m) = .ok m := by
  cases m
  simp [parseParticipantModel, serializeParticipantModel, optField, reqField,
        parseParticipantOutput_roundtrip]

/-! ### models.py: User -/

/-- `models.User`: read-only attributes of the authenticated caller. -/
structure User where
  email : Option String
  username : Option String
  image_url : Option String

def parseUser : Json → Except SchemaError User
  | .obj kvs => do
    let email ← optField "email" (decOptStr "email") none kvs
    let username ← optField "username" (decOptStr "username") none kvs
    let image_url ← optField "image_url" (decOptStr "image_url") none kvs
    pure ⟨email, username, image_url⟩
  | _ => .error .notAnObject

def serializeUser (u : User) : Json :=
  .obj [("email", encOpt Json.str u.email),
        ("username", encOpt Json.str u.username),
        ("image_url", encOpt Json.str u.image_url)]

theorem parseUser_roundtrip (u : User) : parseUser (serializeUser u) = .ok u := by
  cases u
  simp [parseUser, serializeUser, optField]

/-- `models.UserModel`: the full `{id, type, attributes}` resource. -/
structure UserModel where
  id : String
  type : String
  attributes : User

def parseUserModel : Json → Except SchemaError UserModel
  | .obj kvs => do
    let id ← reqField "id" (decStr "id") kvs
    let type ← reqField "type" (decStr "type") kvs
    let attributes ← reqField "attributes" parseUser kvs
    pure ⟨id, type, attributes⟩
  | _ => .error .notAnObject

def serializeUserModel (m : UserModel) : Json :=
  .obj [("id", Json.str m.id),
        ("type", Json.str m.type),
        ("attributes", serializeUser m.attributes)]

theorem parseUserModel_roundtrip (m : UserModel) :
    parseUserModel (serializeUserModel m) = .ok m := by
  cases m
  simp [parseUserModel, serializeUserModel, optField, reqField, parseUser_roundtrip]

/-! ### models.py: Community -/

/-- `models.Community`: community attributes. -/
structure Community where
  permalink : Option String
  subdomain : Option String
  identifier : Option String
  name : Option String
  description : Option String
  timestamps : Option Timestamps

def parseCommunity : Json → Except SchemaError Community
  | .obj kvs => do
    let permalink ← optField "permalink" (decOptStr "permalink") none kvs
    let subdomain ← optField "subdomain" (decOptStr "subdomain") none kvs
    let identifier ← optField "identifier" (decOptStr "identifier") none kvs
    let name ← optField "name" (decOptStr "name") none kvs
    let description ← optField "description" (decOptStr "description") none kvs
    let timestamps ← optField "timestamps" (decOptSub parseTimestamps) none kvs
    pure ⟨permalink, subdomain, identifier, name, description, timestamps⟩
  | _ => .error .notAnObject

def serializeCommunity (c : Community) : Json :=
  .obj [("permalink", encOpt Json.str c.permalink),
        ("subdomain", encOpt Json.str c.subdomain),
        ("identifier", encOpt Json.str c.identifier),
        ("name", encOpt Json.str c.name),
        ("description", encOpt Json.str c.description),
        ("timestamps", encOpt serializeTimestamps c.timestamps)]

theorem parseCommunity_roundtrip (c : Community) :
    parseCommunity (serializeCommunity c) = .ok c := by
  cases c
  simp [parseCommunity, serializeCommunity, optField]

/-- `models.CommunityModel`: the full `{id, type, attributes}` resource. -/
structure CommunityModel where
  id : String
  type : String
  attributes : Community

def parseCommunityModel : Json → Except SchemaError CommunityModel
  | .obj kvs => do
    let id ← reqField "id" (decStr "id") kvs
    let type ← reqField "type" (decStr "type") kvs
    let attributes ← reqField "attributes" parseCommunity kvs
    pure ⟨id, type, attributes⟩
  | _ => .error .notAnObject

def serializeCommunityModel (m : CommunityModel) : Json :=
  .obj [("id", Json.str m.id),
        ("type", Json.str m.type),
        ("attributes", serializeCommunity m.attributes)]

theorem parseCommunityModel_roundtrip (m : CommunityModel) :
    parseCommunityModel (serializeCommunityModel m) = .ok m := by
  cases m
  simp [parseCommunityModel, serializeCommunityModel, optField, reqField,
        parseCommunity_roundtrip]

/-! ### models.py: Tournament option blocks -/

/-- `models.Notifications`. -/
structure Notifications where
  upon_matches_open : Option Bool
  upon_tournament_ends : Option Bool

def parseNotifications : Json → Except SchemaError Notifications
  | .obj kvs => do
    let a ← optField "upon_matches_open" (decOptBool "upon_matches_open") (some false) kvs
    let b ← optField "upon_tournament_ends" (decOptBool "upon_tournament_ends") (some false) kvs
    pure ⟨a, b⟩
  | _ => .error .notAnObject

def serializeNotifications (n : Notifications) : Json :=
  .obj [("upon_matches_open", encOpt Json.bool n.upon_matches_open),
        ("upon_tournament_ends", encOpt Json.bool n.upon_tournament_ends)]

theorem parseNotifications_roundtrip (n : Notifications) :
    parseNotifications (serializeNotifications n) = .ok n := by
  cases n
  simp [parseNotifications, serializeNotifications, optField]

@[simp] theorem decOptSub_notifications (o : Option Notifications) :
    decOptSub parseNotifications (encOpt serializeNotifications o) = .ok o := by
  cases o with
  | none => rfl
  | some a =>
    show decOptSub parseNotifications (serializeNotifications a) = .ok (some a)
    rw [decOptSub, show (serializeNotifications a).isNull = false from rfl]
    simp [parseNotifications_roundtrip a]

/-- `models.MatchOptions`. -/
structure MatchOptions where
  consolation_matches_target_rank : Option Int
  accept_attachments : Option Bool

def parseMatchOptions : Json → Except SchemaError MatchOptions
  | .obj kvs => do
    let a ← optField "consolation_matches_target_rank"
      (decOptInt "consolation_matches_target_rank") (some 3) kvs
    let b ← optField "accept_attachments" (decOptBool "accept_attachments") (some false) kvs
    pure ⟨a, b⟩
  | _ => .error .notAnObject

def serializeMatchOptions (m : MatchOptions) : Json :=
  .obj [("consolation_matches_target_rank", encOpt Json.int m.consolation_matches_target_rank),
        ("accept_attachments", encOpt Json.bool m.accept_attachments)]

theorem parseMatchOptions_roundtrip (m : MatchOptions) :
    parseMatchOptions (serializeMatchOptions m) = .ok m := by
  cases m
  simp [parseMatchOptions, serializeMatchOptions, optField]

@[simp] theorem decOptSub_matchOptions (o : Option MatchOptions) :
    decOptSub parseMatchOptions (encOpt serializeMatchOptions o) = .ok o := by
  cases o with
  | none => rfl
  | some a =>
    show decOptSub parseMatchOptions (serializeMatchOptions a) = .ok (some a)
    rw [decOptSub, show (serializeMatchOptions a).isNull = false from rfl]
    simp [parseMatchOptions_roundtrip a]

/-- `models.RegistrationOptions`. -/
structure RegistrationOptions where
  open_signup : Option Bool
  signup_cap : Option Int
  check_in_duration : Option Int

def parseRegistrationOptions : Json → Except SchemaError RegistrationOptions
  | .obj kvs => do
    let a ← optField "open_signup" (decOptBool "open_signup") (some false) kvs
    let b ← optField "signup_cap" (decOptInt "signup_cap") none kvs
    let c ← optField "check_in_duration" (decOptInt "check_in_duration") none kvs
    pure ⟨a, b, c⟩
  | _ => .error .notAnObject

def serializeRegistrationOptions (r : RegistrationOptions) : Json :=
  .obj [("open_signup", encOpt Json.bool r.open_signup),
        ("signup_cap", encOpt Json.int r.signup_cap),
        ("check_in_duration", encOpt Json.int r.check_in_duration)]

theorem parseRegistrationOptions_roundtrip (r : RegistrationOptions) :
    parseRegistrationOptions (serializeRegistrationOptions r) = .ok r := by
  cases r
  simp [parseRegistrationOptions, serializeRegistrationOptions, optField]

@[simp] theorem decOptSub_registrationOptions (o : Option RegistrationOptions) :
    decOptSub parseRegistrationOptions (encOpt serializeRegistrationOptions o) = .ok o := by
  cases o with
  | none => rfl
  | some a =>
    show decOptSub parseRegistrationOptions (serializeRegistrationOptions a) = .ok (some a)
    rw [decOptSub, show (serializeRegistrationOptions a).isNull = false from rfl]
    simp [parseRegistrationOptions_roundtrip a]

/-- `models.SeedingOptions`. -/
structure SeedingOptions where
  hide_seeds : Option Bool
  sequential_pairings : Option Bool

def parseSeedingOptions : Json → Except SchemaError SeedingOptions
  | .obj kvs => do
    let a ← optField "hide_seeds" (decOptBool "hide_seeds") (some false) kvs
    let b ← optField "sequential_pairings" (decOptBool "sequential_pairings") (some false) kvs
    pure ⟨a, b⟩
  | _ => .error .notAnObject

def serializeSeedingOptions (s : SeedingOptions) : Json :=
  .obj [("hide_seeds", encOpt Json.bool s.hide_seeds),
        ("sequential_pairings", encOpt Json.bool s.sequential_pairings)]

theorem parseSeedingOptions_roundtrip (s : SeedingOptions) :
    parseSeedingOptions (serializeSeedingOptions s) = .ok s := by
  cases s
  simp [parseSeedingOptions, serializeSeedingOptions, optField]

@[simp] theorem decOptSub_seedingOptions (o : Option SeedingOptions) :
    decOptSub parseSeedingOptions (encOpt serializeSeedingOptions o) = .ok o := by
  cases o with
  | none => rfl
  | some a =>
    show decOptSub parseSeedingOptions (serializeSeedingOptions a) = .ok (some a)
    rw [decOptSub, show (serializeSeedingOptions a).isNull = false from rfl]
    simp [parseSeedingOptions_roundtrip a]

/-- `models.StationOptions`. -/
structure StationOptions where
  auto_assign : Option Bool
  only_start_matches_with_assigned_stations : Option Bool

def parseStationOptions : Json → Except SchemaError StationOptions
  | .obj kvs => do
    let a ← optField "auto_assign" (decOptBool "auto_assign") (some false) kvs
    let b ← optField "only_start_matches_with_assigned_stations"
      (decOptBool "only_start_matches_with_assigned_stations") (some false) kvs
    pure ⟨a, b⟩
  | _ => .error .notAnObject

def serializeStationOptions (s : StationOptions) : Json :=
  .obj [("auto_assign", encOpt Json.bool s.auto_assign),
        ("only_start_matches_with_assigned_stations",
          encOpt Json.bool s.only_start_matches_with_assigned_stations)]

theorem parseStationOptions_roundtrip (s : StationOptions) :
    parseStationOptions (serializeStationOptions s) = .ok s := by
  cases s
  simp [parseStationOptions, serializeStationOptions, optField]

@[simp] theorem decOptSub_stationOptions (o : Option StationOptions) :
    decOptSub parseStationOptions (encOpt serializeStationOptions o) = .ok o := by
  cases o with
  | none => rfl
  | some a =>
    show decOptSub parseStationOptions (serializeStationOptions a) = .ok (some a)
    rw [decOptSub, show (serializeStationOptions a).isNull = false from rfl]
    simp [parseStationOptions_roundtrip a]

/-- `models.GroupStageOptions`. -/
structure GroupStageOptions where
  stage_type : Option String
  group_size : Option Int
  participant_count_to_advance_per_group : Option Int
  rr_iterations : Option Int
  ranked_by : Option String
  rr_pts_for_match_win : Option Rat
  rr_pts_for_match_tie : Option Rat
  rr_pts_for_game_win : Option Rat
  rr_pts_for_game_tie : Option Rat
  split_participants : Option Bool

def parseGroupStageOptions : Json → Except SchemaError GroupStageOptions
  | .obj kvs => do
    let a ← optField "stage_type" (decOptStr "stage_type") (some "round robin") kvs
    let b ← optField "group_size" (decOptInt "group_size") (some 4) kvs
    let c ← optField "participant_count_to_advance_per_group"
      (decOptInt "participant_count_to_advance_per_group") (some 2) kvs
    let d ← optField "rr_iterations" (decOptInt "rr_iterations") (some 1) kvs
    let e ← optField "ranked_by" (decOptStr "ranked_by") (some "") kvs
    let f ← optField "rr_pts_for_match_win" (decOptFloat "rr_pts_for_match_win") (some 1) kvs
    let g ← optField "rr_pts_for_match_tie" (decOptFloat "rr_pts_for_match_tie") (some (1/2)) kvs
    let h ← optField "rr_pts_for_game_win" (decOptFloat "rr_pts_for_game_win") (some 0) kvs
    let i ← optField "rr_pts_for_game_tie" (decOptFloat "rr_pts_for_game_tie") (some 0) kvs
    let j ← optField "split_participants" (decOptBool "split_participants") (some false) kvs
    pure ⟨a, b, c, d, e, f, g, h, i, j⟩
  | _ => .error .notAnObject

def serializeGroupStageOptions (g : GroupStageOptions) : Json :=
  .obj [("stage_type", encOpt Json.str g.stage_type),
        ("group_size", encOpt Json.int g.group_size),
        ("participant_count_to_advance_per_group",
          encOpt Json.int g.participant_count_to_advance_per_group),
        ("rr_iterations", encOpt Json.int g.rr_iterations),
        ("ranked_by", encOpt Json.str g.ranked_by),
        ("rr_pts_for_match_win", encOpt Json.float g.rr_pts_for_match_win),
        ("rr_pts_for_match_tie", encOpt Json.float g.rr_pts_for_match_tie),
        ("rr_pts_for_game_win", encOpt Json.float g.rr_pts_for_game_win),
        ("rr_pts_for_game_tie", encOpt Json.float g.rr_pts_for_game_tie),
        ("split_participants", encOpt Json.bool g.split_participants)]

theorem parseGroupStageOptions_roundtrip (g : GroupStageOptions) :
    parseGroupStageOptions (serializeGroupStageOptions g) = .ok g := by
  cases g
  simp [parseGroupStageOptions, serializeGroupStageOptions, optField]

@[simp] theorem decOptSub_groupStageOptions (o : Option GroupStageOptions) :
    decOptSub parseGroupStageOptions (encOpt serializeGroupStageOptions o) = .ok o := by
  cases o with
  | none => rfl
  | some a =>
    show decOptSub parseGroupStageOptions (serializeGroupStageOptions a) = .ok (some a)
    rw [decOptSub, show (serializeGroupStageOptions a).isNull = false from rfl]
    simp [parseGroupStageOptions_roundtrip a]

/-- `models.DoubleEliminationOptions`. -/
structure DoubleEliminationOptions where
  split_participants : Option Bool
  grand_finals_modifier : Option String

def parseDoubleEliminationOptions : Json → Except SchemaError DoubleEliminationOptions
  | .obj kvs => do
    let a ← optField "split_participants" (decOptBool "split_participants") (some false) kvs
    let b ← optField "grand_finals_modifier" (decOptStr "grand_finals_modifier") (some "") kvs
    pure ⟨a, b⟩
  | _ => .error .notAnObject

def serializeDoubleEliminationOptions (d : DoubleEliminationOptions) : Json :=
  .obj [("split_participants", encOpt Json.bool d.split_participants),
        ("grand_finals_modifier", encOpt Json.str d.grand_finals_modifier)]

theorem parseDoubleEliminationOptions_roundtrip (d : DoubleEliminationOptions) :
    parseDoubleEliminationOptions (serializeDoubleEliminationOptions d) = .ok d := by
  cases d
  simp [parseDoubleEliminationOptions, serializeDoubleEliminationOptions, optField]

@[simp] theorem decOptSub_doubleEliminationOptions (o : Option DoubleEliminationOptions) :
    decOptSub parseDoubleEliminationOptions (encOpt serializeDoubleEliminationOptions o) = .ok o := by
  cases o with
  | none => rfl
  | some a =>
    show decOptSub parseDoubleEliminationOptions (serializeDoubleEliminationOptions a) = .ok (some a)
    rw [decOptSub, show (serializeDoubleEliminationOptions a).isNull = false from rfl]
    simp [parseDoubleEliminationOptions_roundtrip a]

/-- `models.RoundRobinOptions`. -/
structure RoundRobinOptions where
  iterations : Option Int
  ranking : Option String
  pts_for_game_win : Option Rat
  pts_for_game_tie : Option Rat
  pts_for_match_win : Option Rat
  pts_for_match_tie : Option Rat

def parseRoundRobinOptions : Json → Except SchemaError RoundRobinOptions
  | .obj kvs => do
    let a ← optField "iterations" (decOptInt "iterations") (some 2) kvs
    let b ← optField "ranking" (decOptStr "ranking") (some "") kvs
    let c ← optField "pts_for_game_win" (decOptFloat "pts_for_game_win") (some 1) kvs
    let d ← optField "pts_for_game_tie" (decOptFloat "pts_for_game_tie") (some 0) kvs
    let e ← optField "pts_for_match_win" (decOptFloat "pts_for_match_win") (some 1) kvs
    let f ← optField "pts_for_match_tie" (decOptFloat "pts_for_match_tie") (some (1/2)) kvs
    pure ⟨a, b, c, d, e, f⟩
  | _ => .error .notAnObject

def serializeRoundRobinOptions (r : RoundRobinOptions) : Json :=
  .obj [("iterations", encOpt Json.int r.iterations),
        ("ranking", encOpt Json.str r.ranking),
        ("pts_for_game_win", encOpt Json.float r.pts_for_game_win),
        ("pts_for_game_tie", encOpt Json.float r.pts_for_game_tie),
        ("pts_for_match_win", encOpt Json.float r.pts_for_match_win),
        ("pts_for_match_tie", encOpt Json.float r.pts_for_match_tie)]

theorem parseRoundRobinOptions_roundtrip (r : RoundRobinOptions) :
    parseRoundRobinOptions (serializeRoundRobinOptions r) = .ok r := by
  cases r
  simp [parseRoundRobinOptions, serializeRoundRobinOptions, optField]

@[simp] theorem decOptSub_roundRobinOptions (o : Option RoundRobinOptions) :
    decOptSub parseRoundRobinOptions (encOpt serializeRoundRobinOptions o) = .ok o := by
  cases o with
  | none => rfl
  | some a =>
    show decOptSub parseRoundRobinOptions (serializeRoundRobinOptions a) = .ok (some a)
    rw [decOptSub, show (serializeRoundRobinOptions a).isNull = false from rfl]
    simp [parseRoundRobinOptions_roundtrip a]

/-- `models.SwissOptions`. -/
structure SwissOptions where
  rounds : Option Int
  pts_for_game_win : Option Rat
  pts_for_game_tie : Option Rat
  pts_for_match_win : Option Rat
  pts_for_match_tie : Option Rat

def parseSwissOptions : Json → Except SchemaError SwissOptions
  | .obj kvs => do
    let a ← optField "rounds" (decOptInt "rounds") (some 2) kvs
    let b ← optField "pts_for_game_win" (decOptFloat "pts_for_game_win") (some 1) kvs
    let c ← optField "pts_for_game_tie" (decOptFloat "pts_for_game_tie") (some 0) kvs
    let d ← optField "pts_for_match_win" (decOptFloat "pts_for_match_win") (some 1) kvs
    let e ← optField "pts_for_match_tie" (decOptFloat "pts_for_match_tie") (some (1/2)) kvs
    pure ⟨a, b, c, d, e⟩
  | _ => .error .notAnObject

def serializeSwissOptions (s : SwissOptions) : Json :=
  .obj [("rounds", encOpt Json.int s.rounds),
        ("pts_for_game_win", encOpt Json.float s.pts_for_game_win),
        ("pts_for_game_tie", encOpt Json.float s.pts_for_game_tie),
        ("pts_for_match_win", encOpt Json.float s.pts_for_match_win),
        ("pts_for_match_tie", encOpt Json.float s.pts_for_match_tie)]

theorem parseSwissOptions_roundtrip (s : SwissOptions) :
    parseSwissOptions (serializeSwissOptions s) = .ok s := by
  cases s
  simp [parseSwissOptions, serializeSwissOptions, optField]

@[simp] theorem decOptSub_swissOptions (o : Option SwissOptions) :
    decOptSub parseSwissOptions (encOpt serializeSwissOptions o) = .ok o := by
  cases o with
  | none => rfl
  | some a =>
    show decOptSub parseSwissOptions (serializeSwissOptions a) = .ok (some a)
    rw [decOptSub, show (serializeSwissOptions a).isNull = false from rfl]
    simp [parseSwissOptions_roundtrip a]

/-- `models.FreeForAllOptions`. -/
structure FreeForAllOptions where
  max_participants : Option Int

def parseFreeForAllOptions : Json → Except SchemaError FreeForAllOptions
  | .obj kvs => do
    let a ← optField "max_participants" (decOptInt "max_participants") (some 4) kvs
    pure ⟨a⟩
  | _ => .error .notAnObject

def serializeFreeForAllOptions (f : FreeForAllOptions) : Json :=
  .obj [("max_participants", encOpt Json.int f.max_participants)]

theorem parseFreeForAllOptions_roundtrip (f : FreeForAllOptions) :
    parseFreeForAllOptions (serializeFreeForAllOptions f) = .ok f := by
  cases f
  simp [parseFreeForAllOptions, serializeFreeForAllOptions, optField]

@[simp] theorem decOptSub_freeForAllOptions (o : Option FreeForAllOptions) :
    decOptSub parseFreeForAllOptions (encOpt serializeFreeForAllOptions o) = .ok o := by
  cases o with
  | none => rfl
  | some a =>
    show decOptSub parseFreeForAllOptions (serializeFreeForAllOptions a) = .ok (some a)
    rw [decOptSub, show (serializeFreeForAllOptions a).isNull = false from rfl]
    simp [parseFreeForAllOptions_roundtrip a]

/-! ### models.py: Tournament -/

/-- `models.TournamentAttributes`: the pydantic `Tournament` attribute fields
(`name` and `tournament_type` required, everything else optional with the
declared default) extended, as in the source, with the read-side `timestamps`
field. -/
structure TournamentAttributes where
  name : String
  url : Option String
  tournament_type : String
  game_name : Option String
  «private» : Option Bool
  starts_at : Option String
  description : Option String
  notifications : Option Notifications
  match_options : Option MatchOptions
  registration_options : Option RegistrationOptions
  seeding_options : Option SeedingOptions
  station_options : Option StationOptions
  group_stage_enabled : Option Bool
  group_stage_options : Option GroupStageOptions
  double_elimination_options : Option DoubleEliminationOptions
  round_robin_options : Option RoundRobinOptions
  swiss_options : Option SwissOptions
  free_for_all_options : Option FreeForAllOptions
  timestamps : Option Timestamps

def parseTournamentAttributes : Json → Except SchemaError TournamentAttributes
  | .obj kvs => do
    let name ← reqField "name" (decStr "name") kvs
    let url ← optField "url" (decOptStr "url") none kvs
    let tournament_type ← reqField "tournament_type" (decStr "tournament_type") kvs
    let game_name ← optField "game_name" (decOptStr "game_name") none kvs
    let priv ← optField "private" (decOptBool "private") (some false) kvs
    let starts_at ← optField "starts_at" (decOptStr "starts_at") none kvs
    let description ← optField "description" (decOptStr "description") none kvs
    let notifications ← optField "notifications" (decOptSub parseNotifications) none kvs
    let match_options ← optField "match_options" (decOptSub parseMatchOptions) none kvs
    let registration_options ← optField "registration_options"
      (decOptSub parseRegistrationOptions) none kvs
    let seeding_options ← optField "seeding_options" (decOptSub parseSeedingOptions) none kvs
    let station_options ← optField "station_options" (decOptSub parseStationOptions) none kvs
    let group_stage_enabled ← optField "group_stage_enabled"
      (decOptBool "group_stage_enabled") (some false) kvs
    let group_stage_options ← optField "group_stage_options"
      (decOptSub parseGroupStageOptions) none kvs
    let double_elimination_options ← optField "double_elimination_options"
      (decOptSub parseDoubleEliminationOptions) none kvs
    let round_robin_options ← optField "round_robin_options"
      (decOptSub parseRoundRobinOptions) none kvs
    let swiss_options ← optField "swiss_options" (decOptSub parseSwissOptions) none kvs
    let free_for_all_options ← optField "free_for_all_options"
      (decOptSub parseFreeForAllOptions) none kvs
    let timestamps ← optField "timestamps" (decOptSub parseTimestamps) none kvs
    pure ⟨name, url, tournament_type, game_name, priv, starts_at, description, notifications,
          match_options, registration_options, seeding_options, station_options,
          group_stage_enabled, group_stage_options, double_elimination_options,
          round_robin_options, swiss_options, free_for_all_options, timestamps⟩
  | _ => .error .notAnObject

def serializeTournamentAttributes (t : TournamentAttributes) : Json :=
  .obj [("name", Json.str t.name),
        ("url", encOpt Json.str t.url),
        ("tournament_type", Json.str t.tournament_type),
        ("game_name", encOpt Json.str t.game_name),
        ("private", encOpt Json.bool t.«private»),
        ("starts_at", encOpt Json.str t.starts_at),
        ("description", encOpt Json.str t.description),
        ("notifications", encOpt serializeNotifications t.notifications),
        ("match_options", encOpt serializeMatchOptions t.match_options),
        ("registration_options", encOpt serializeRegistrationOptions t.registration_options),
        ("seeding_options", encOpt serializeSeedingOptions t.seeding_options),
        ("station_options", encOpt serializeStationOptions t.station_options),
        ("group_stage_enabled", encOpt Json.bool t.group_stage_enabled),
        ("group_stage_options", encOpt serializeGroupStageOptions t.group_stage_options),
        ("double_elimination_options",
          encOpt serializeDoubleEliminationOptions t.double_elimination_options),
        ("round_robin_options", encOpt serializeRoundRobinOptions t.round_robin_options),
        ("swiss_options", encOpt serializeSwissOptions t.swiss_options),
        ("free_for_all_options", encOpt serializeFreeForAllOptions t.free_for_all_options),
        ("timestamps", encOpt serializeTimestamps t.timestamps)]

theorem parseTournamentAttributes_roundtrip (t : TournamentAttributes) :
    parseTournamentAttributes (serializeTournamentAttributes t) = .ok t := by
  cases t
  simp [parseTournamentAttributes, serializeTournamentAttributes, optField, reqField]

/-- `models.TournamentModel`: the full `{id, type, attributes}` resource. -/
structure TournamentModel where
  id : String
  type : String
  attributes : TournamentAttributes

def parseTournamentModel : Json → Except SchemaError TournamentModel
  | .obj kvs => do
    let id ← reqField "id" (decStr "id") kvs
    let type ← reqField "type" (decStr "type") kvs
    let attributes ← reqField "attributes" parseTournamentAttributes kvs
    pure ⟨id, type, attributes⟩
  | _ => .error .notAnObject

def serializeTournamentModel (m : TournamentModel) : Json :=
  .obj [("id", Json.str m.id),
        ("type", Json.str m.type),
        ("attributes", serializeTournamentAttributes m.attributes)]

theorem parseTournamentModel_roundtrip (m : TournamentModel) :
    parseTournamentModel (serializeTournamentModel m) = .ok m := by
  cases m
  simp [parseTournamentModel, serializeTournamentModel, optField, reqField,
        parseTournamentAttributes_roundtrip]

/-! ### models.py: Matches -/

/-- `models.RelationshipResourceIdentifier`: `{ "id": ..., "type": ... }`. -/
structure RelationshipResourceIdentifier where
  id : String
  type : String

def parseRelationshipResourceIdentifier : Json → Except SchemaError RelationshipResourceIdentifier
  | .obj kvs => do
    let id ← reqField "id" (decStr "id") kvs
    let type ← reqField "type" (decStr "type") kvs
    pure ⟨id, type⟩
  | _ => .error .notAnObject

def serializeRelationshipResourceIdentifier (r : RelationshipResourceIdentifier) : Json :=
  .obj [("id", Json.str r.id), ("type", Json.str r.type)]

theorem parseRelationshipResourceIdentifier_roundtrip (r : RelationshipResourceIdentifier) :
    parseRelationshipResourceIdentifier (serializeRelationshipResourceIdentifier r) = .ok r := by
  cases r
  simp [parseRelationshipResourceIdentifier, serializeRelationshipResourceIdentifier, reqField]

@[simp] theorem decOptSub_relationshipResourceIdentifier
    (o : Option RelationshipResourceIdentifier) :
    decOptSub parseRelationshipResourceIdentifier
      (encOpt serializeRelationshipResourceIdentifier o) = .ok o := by
  cases o with
  | none => rfl
  | some a =>
    show decOptSub parseRelationshipResourceIdentifier
      (serializeRelationshipResourceIdentifier a) = .ok (some a)
    rw [decOptSub, show (serializeRelationshipResourceIdentifier a).isNull = false from rfl]
    simp [parseRelationshipResourceIdentifier_roundtrip a]

/-- `models.ParticipantRelationship`: `{ "data": {...} }` with nullable data. -/
structure ParticipantRelationship where
  data : Option RelationshipResourceIdentifier

def parseParticipantRelationship : Json → Except SchemaError ParticipantRelationship
  | .obj kvs => do
    let data ← optField "data" (decOptSub parseRelationshipResourceIdentifier) none kvs
    pure ⟨data⟩
  | _ => .error .notAnObject

def serializeParticipantRelationship (p : ParticipantRelationship) : Json :=
  .obj [("data", encOpt serializeRelationshipResourceIdentifier p.data)]

theorem parseParticipantRelationship_roundtrip (p : ParticipantRelationship) :
    parseParticipantRelationship (serializeParticipantRelationship p) = .ok p := by
  cases p
  simp [parseParticipantRelationship, serializeParticipantRelationship, optField]

@[simp] theorem decOptSub_participantRelationship (o : Option ParticipantRelationship) :
    decOptSub parseParticipantRelationship (encOpt serializeParticipantRelationship o) = .ok o := by
  cases o with
  | none => rfl
  | some a =>
    show decOptSub parseParticipantRelationship (serializeParticipantRelationship a) = .ok (some a)
    rw [decOptSub, show (serializeParticipantRelationship a).isNull = false from rfl]
    simp [parseParticipantRelationship_roundtrip a]

/-- `models.MatchRelationships`: `{ "player1": {...}, "player2": {...} }`. -/
structure MatchRelationships where
  player1 : Option ParticipantRelationship
  player2 : Option ParticipantRelationship

def parseMatchRelationships : Json → Except SchemaError MatchRelationships
  | .obj kvs => do
    let player1 ← optField "player1" (decOptSub parseParticipantRelationship) none kvs
    let player2 ← optField "player2" (decOptSub parseParticipantRelationship) none kvs
    pure ⟨player1, player2⟩
  | _ => .error .notAnObject

def serializeMatchRelationships (m : MatchRelationships) : Json :=
  .obj [("player1", encOpt serializeParticipantRelationship m.player1),
        ("player2", encOpt serializeParticipantRelationship m.player2)]

theorem parseMatchRelationships_roundtrip (m : MatchRelationships) :
    parseMatchRelationships (serializeMatchRelationships m) = .ok m := by
  cases m
  simp [parseMatchRelationships, serializeMatchRelationships, optField]

@[simp] theorem decOptSub_matchRelationships (o : Option MatchRelationships) :
    decOptSub parseMatchRelationships (encOpt serializeMatchRelationships o) = .ok o := by
  cases o with
  | none => rfl
  | some a =>
    show decOptSub parseMatchRelationships (serializeMatchRelationships a) = .ok (some a)
    rw [decOptSub, show (serializeMatchRelationships a).isNull = false from rfl]
    simp [parseMatchRelationships_roundtrip a]

/-- `models.MatchParticipantPoints`: one `points_by_participant` entry. -/
structure MatchParticipantPoints where
  participant_id : Option Int
  scores : Option (List Int)

def parseMatchParticipantPoints : Json → Except SchemaError MatchParticipantPoints
  | .obj kvs => do
    let participant_id ← optField "participant_id" (decOptInt "participant_id") none kvs
    let scores ← optField "scores" (decOptList "scores" (decInt "scores")) none kvs
    pure ⟨participant_id, scores⟩
  | _ => .error .notAnObject

def serializeMatchParticipantPoints (m : MatchParticipantPoints) : Json :=
  .obj [("participant_id", encOpt Json.int m.participant_id),
        ("scores", encOpt (fun l => Json.arr (l.map Json.int)) m.scores)]

theorem parseMatchParticipantPoints_roundtrip (m : MatchParticipantPoints) :
    parseMatchParticipantPoints (serializeMatchParticipantPoints m) = .ok m := by
  cases m
  simp [parseMatchParticipantPoints, serializeMatchParticipantPoints, optField]

@[simp] theorem decOptList_encMatchParticipantPoints (field : String)
    (o : Option (List MatchParticipantPoints)) :
    decOptList field parseMatchParticipantPoints
      (encOpt (fun l => Json.arr (l.map serializeMatchParticipantPoints)) o) = .ok o :=
  decOptList_enc field parseMatchParticipantPoints serializeMatchParticipantPoints
    parseMatchParticipantPoints_roundtrip o

/-- `models.MatchAttributes`: the match attribute fields. -/
structure MatchAttributes where
  state : Option String
  round : Option Int
  identifier : Option String
  suggested_play_order : Option Int
  scores : Option String
  score_in_sets : Option (List (List Int))
  points_by_participant : Option (List MatchParticipantPoints)
  timestamps : Option Timestamps
  winner_id : Option Int

def parseMatchAttributes : Json → Except SchemaError MatchAttributes
  | .obj kvs => do
    let state ← optField "state" (decOptStr "state") none kvs
    let round ← optField "round" (decOptInt "round") none kvs
    let identifier ← optField "identifier" (decOptStr "identifier") none kvs
    let suggested_play_order ← optField "suggested_play_order"
      (decOptInt "suggested_play_order") none kvs
    let scores ← optField "scores" (decOptStr "scores") none kvs
    let score_in_sets ← optField "score_in_sets"
      (decOptList "score_in_sets" (decIntList "score_in_sets")) none kvs
    let points_by_participant ← optField "points_by_participant"
      (decOptList "points_by_participant" parseMatchParticipantPoints) none kvs
    let timestamps ← optField "timestamps" (decOptSub parseTimestamps) none kvs
    let winner_id ← optField "winner_id" (decOptInt "winner_id") none kvs
    pure ⟨state, round, identifier, suggested_play_order, scores, score_in_sets,
          points_by_participant, timestamps, winner_id⟩
  | _ => .error .notAnObject

def serializeMatchAttributes (m : MatchAttributes) : Json :=
  .obj [("state", encOpt Json.str m.state),
        ("round", encOpt Json.int m.round),
        ("identifier", encOpt Json.str m.identifier),
        ("suggested_play_order", encOpt Json.int m.suggested_play_order),
        ("scores", encOpt Json.str m.scores),
        ("score_in_sets",
          encOpt (fun l => Json.arr (l.map (fun il => Json.arr (il.map Json.int)))) m.score_in_sets),
        ("points_by_participant",
          encOpt (fun l => Json.arr (l.map serializeMatchParticipantPoints)) m.points_by_participant),
        ("timestamps", encOpt serializeTimestamps m.timestamps),
        ("winner_id", encOpt Json.int m.winner_id)]

theorem parseMatchAttributes_roundtrip (m : MatchAttributes) :
    parseMatchAttributes (serializeMatchAttributes m) = .ok m := by
  cases m
  simp [parseMatchAttributes, serializeMatchAttributes, optField]

/-- `models.MatchModel`: the full `{id, type, attributes, relationships}` resource. -/
structure MatchModel where
  id : String
  type : String
  attributes : MatchAttributes
  relationships : Option MatchRelationships

def parseMatchModel : Json → Except SchemaError MatchModel
  | .obj kvs => do
    let id ← reqField "id" (decStr "id") kvs
    let type ← reqField "type" (decStr "type") kvs
    let attributes ← reqField "attributes" parseMatchAttributes kvs
    let relationships ← optField "relationships" (decOptSub parseMatchRelationships) none kvs
    pure ⟨id, type, attributes, relationships⟩
  | _ => .error .notAnObject

def serializeMatchModel (m : MatchModel) : Json :=
  .obj [("id", Json.str m.id),
        ("type", Json.str m.type),
        ("attributes", serializeMatchAttributes m.attributes),
        ("relationships", encOpt serializeMatchRelationships m.relationships)]

theorem parseMatchModel_roundtrip (m : MatchModel) :
    parseMatchModel (serializeMatchModel m) = .ok m := by
  cases m
  simp [parseMatchModel, serializeMatchModel, optField, reqField,
        parseMatchAttributes_roundtrip]

/-! ### models.py: Races, Rounds, Elapsed Times -/

/-- `models.RaceNotifications`. -/
structure RaceNotifications where
  uponMatchesOpen : Option Bool
  uponTournamentEnds : Option Bool

def parseRaceNotifications : Json → Except SchemaError RaceNotifications
  | .obj kvs => do
    let a ← optField "uponMatchesOpen" (decOptBool "uponMatchesOpen") (some false) kvs
    let b ← optField "uponTournamentEnds" (decOptBool "uponTournamentEnds") (some false) kvs
    pure ⟨a, b⟩
  | _ => .error .notAnObject

def serializeRaceNotifications (n : RaceNotifications) : Json :=
  .obj [("uponMatchesOpen", encOpt Json.bool n.uponMatchesOpen),
        ("uponTournamentEnds", encOpt Json.bool n.uponTournamentEnds)]

theorem parseRaceNotifications_roundtrip (n : RaceNotifications) :
    parseRaceNotifications (serializeRaceNotifications n) = .ok n := by
  cases n
  simp [parseRaceNotifications, serializeRaceNotifications, optField]

@[simp] theorem decOptSub_raceNotifications (o : Option RaceNotifications) :
    decOptSub parseRaceNotifications (encOpt serializeRaceNotifications o) = .ok o := by
  cases o with
  | none => rfl
  | some a =>
    show decOptSub parseRaceNotifications (serializeRaceNotifications a) = .ok (some a)
    rw [decOptSub, show (serializeRaceNotifications a).isNull = false from rfl]
    simp [parseRaceNotifications_roundtrip a]

/-- `models.RaceRegistrationOptions`. -/
structure RaceRegistrationOptions where
  openSignup : Option Bool
  signupCap : Option Int

def parseRaceRegistrationOptions : Json → Except SchemaError RaceRegistrationOptions
  | .obj kvs => do
    let a ← optField "openSignup" (decOptBool "openSignup") (some false) kvs
    let b ← optField "signupCap" (decOptInt "signupCap") none kvs
    pure ⟨a, b⟩
  | _ => .error .notAnObject

def serializeRaceRegistrationOptions (r : RaceRegistrationOptions) : Json :=
  .obj [("openSignup", encOpt Json.bool r.openSignup),
        ("signupCap", encOpt Json.int r.signupCap)]

theorem parseRaceRegistrationOptions_roundtrip (r : RaceRegistrationOptions) :
    parseRaceRegistrationOptions (serializeRaceRegistrationOptions r) = .ok r := by
  cases r
  simp [parseRaceRegistrationOptions, serializeRaceRegistrationOptions, optField]

@[simp] theorem decOptSub_raceRegistrationOptions (o : Option RaceRegistrationOptions) :
    decOptSub parseRaceRegistrationOptions (encOpt serializeRaceRegistrationOptions o) = .ok o := by
  cases o with
  | none => rfl
  | some a =>
    show decOptSub parseRaceRegistrationOptions (serializeRaceRegistrationOptions a) = .ok (some a)
    rw [decOptSub, show (serializeRaceRegistrationOptions a).isNull = false from rfl]
    simp [parseRaceRegistrationOptions_roundtrip a]

/-- `models.GrandPrixOptions`. -/
structure GrandPrixOptions where
  rounds : Option Int

def parseGrandPrixOptions : Json → Except SchemaError GrandPrixOptions
  | .obj kvs => do
    let a ← optField "rounds" (decOptInt "rounds") (some 4) kvs
    pure ⟨a⟩
  | _ => .error .notAnObject

def serializeGrandPrixOptions (g : GrandPrixOptions) : Json :=
  .obj [("rounds", encOpt Json.int g.rounds)]

theorem parseGrandPrixOptions_roundtrip (g : GrandPrixOptions) :
    parseGrandPrixOptions (serializeGrandPrixOptions g) = .ok g := by
  cases g
  simp [parseGrandPrixOptions, serializeGrandPrixOptions, optField]

@[simp] theorem decOptSub_grandPrixOptions (o : Option GrandPrixOptions) :
    decOptSub parseGrandPrixOptions (encOpt serializeGrandPrixOptions o) = .ok o := by
  cases o with
  | none => rfl
  | some a =>
    show decOptSub parseGrandPrixOptions (serializeGrandPrixOptions a) = .ok (some a)
    rw [decOptSub, show (serializeGrandPrixOptions a).isNull = false from rfl]
    simp [parseGrandPrixOptions_roundtrip a]

/-- `models.RaceAttributes`: race attributes, wire names already camelCase. -/
structure RaceAttributes where
  name : Option String
  url : Option String
  raceType : Option String
  description : Option String
  «private» : Option Bool
  currentLap : Option (List (String × Json))
  notifications : Option RaceNotifications
  registrationOptions : Option RaceRegistrationOptions
  grandPrixOptions : Option GrandPrixOptions
  timestamps : Option Timestamps

def parseRaceAttributes : Json → Except SchemaError RaceAttributes
  | .obj kvs => do
    let name ← optField "name" (decOptStr "name") none kvs
    let url ← optField "url" (decOptStr "url") none kvs
    let raceType ← optField "raceType" (decOptStr "raceType") none kvs
    let description ← optField "description" (decOptStr "description") none kvs
    let priv ← optField "private" (decOptBool "private") none kvs
    let currentLap ← optField "currentLap" (decOptDict "currentLap") none kvs
    let notifications ← optField "notifications" (decOptSub parseRaceNotifications) none kvs
    let registrationOptions ← optField "registrationOptions"
      (decOptSub parseRaceRegistrationOptions) none kvs
    let grandPrixOptions ← optField "grandPrixOptions"
      (decOptSub parseGrandPrixOptions) none kvs
    let timestamps ← optField "timestamps" (decOptSub parseTimestamps) none kvs
    pure ⟨name, url, raceType, description, priv, currentLap, notifications,
          registrationOptions, grandPrixOptions, timestamps⟩
  | _ => .error .notAnObject

def serializeRaceAttributes (r : RaceAttributes) : Json :=
  .obj [("name", encOpt Json.str r.name),
        ("url", encOpt Json.str r.url),
        ("raceType", encOpt Json.str r.raceType),
        ("description", encOpt Json.str r.description),
        ("private", encOpt Json.bool r.«private»),
        ("currentLap", encOpt Json.obj r.currentLap),
        ("notifications", encOpt serializeRaceNotifications r.notifications),
        ("registrationOptions", encOpt serializeRaceRegistrationOptions r.registrationOptions),
        ("grandPrixOptions", encOpt serializeGrandPrixOptions r.grandPrixOptions),
        ("timestamps", encOpt serializeTimestamps r.timestamps)]

theorem parseRaceAttributes_roundtrip (r : RaceAttributes) :
    parseRaceAttributes (serializeRaceAttributes r) = .ok r := by
  cases r
  simp [parseRaceAttributes, serializeRaceAttributes, optField]

/-- `models.RaceModel`: the full `{id, type, attributes}` resource. -/
structure RaceModel where
  id : String
  type : String
  attributes : RaceAttributes

def parseRaceModel : Json → Except SchemaError RaceModel
  | .obj kvs => do
    let id ← reqField "id" (decStr "id") kvs
    let type ← reqField "type" (decStr "type") kvs
    let attributes ← reqField "attributes" parseRaceAttributes kvs
    pure ⟨id, type, attributes⟩
  | _ => .error .notAnObject

def serializeRaceModel (m : RaceModel) : Json :=
  .obj [("id", Json.str m.id),
        ("type", Json.str m.type),
        ("attributes", serializeRaceAttributes m.attributes)]

theorem parseRaceModel_roundtrip (m : RaceModel) :
    parseRaceModel (serializeRaceModel m) = .ok m := by
  cases m
  simp [parseRaceModel, serializeRaceModel, optField, reqField, parseRaceAttributes_roundtrip]

/-- `models.RoundAttributes`: a round within a race. -/
structure RoundAttributes where
  round : Option Int
  state : Option String
  timestamps : Option Timestamps

def parseRoundAttributes : Json → Except SchemaError RoundAttributes
  | .obj kvs => do
    let round ← optField "round" (decOptInt "round") none kvs
    let state ← optField "state" (decOptStr "state") none kvs
    let timestamps ← optField "timestamps" (decOptSub parseTimestamps) none kvs
    pure ⟨round, state, timestamps⟩
  | _ => .error .notAnObject

def serializeRoundAttributes (r : RoundAttributes) : Json :=
  .obj [("round", encOpt Json.int r.round),
        ("state", encOpt Json.str r.state),
        ("timestamps", encOpt serializeTimestamps r.timestamps)]

theorem parseRoundAttributes_roundtrip (r : RoundAttributes) :
    parseRoundAttributes (serializeRoundAttributes r) = .ok r := by
  cases r
  simp [parseRoundAttributes, serializeRoundAttributes, optField]

/-- `models.RoundModel`: the full `{id, type, attributes}` resource. -/
structure RoundModel where
  id : String
  type : String
  attributes : RoundAttributes

def parseRoundModel : Json → Except SchemaError RoundModel
  | .obj kvs => do
    let id ← reqField "id" (decStr "id") kvs
    let type ← reqField "type" (decStr "type") kvs
    let attributes ← reqField "attributes" parseRoundAttributes kvs
    pure ⟨id, type, attributes⟩
  | _ => .error .notAnObject

def serializeRoundModel (m : RoundModel) : Json :=
  .obj [("id", Json.str m.id),
        ("type", Json.str m.type),
        ("attributes", serializeRoundAttributes m.attributes)]

theorem parseRoundModel_roundtrip (m : RoundModel) :
    parseRoundModel (serializeRoundModel m) = .ok m := by
  cases m
  simp [parseRoundModel, serializeRoundModel, optField, reqField, parseRoundAttributes_roundtrip]

/-- `models.ElapsedTimeAttributes`: per-participant timing results. -/
structure ElapsedTimeAttributes where
  elapsedTime : Option Int
  points : Option Rat
  rank : Option Int
  formattedTime : Option String
  timestamps : Option Timestamps

def parseElapsedTimeAttributes : Json → Except SchemaError ElapsedTimeAttributes
  | .obj kvs => do
    let elapsedTime ← optField "elapsedTime" (decOptInt "elapsedTime") none kvs
    let points ← optField "points" (decOptFloat "points") none kvs
    let rank ← optField "rank" (decOptInt "rank") none kvs
    let formattedTime ← optField "formattedTime" (decOptStr "formattedTime") none kvs
    let timestamps ← optField "timestamps" (decOptSub parseTimestamps) none kvs
    pure ⟨elapsedTime, points, rank, formattedTime, timestamps⟩
  | _ => .error .notAnObject

def serializeElapsedTimeAttributes (e : ElapsedTimeAttributes) : Json :=
  .obj [("elapsedTime", encOpt Json.int e.elapsedTime),
        ("points", encOpt Json.float e.points),
        ("rank", encOpt Json.int e.rank),
        ("formattedTime", encOpt Json.str e.formattedTime),
        ("timestamps", encOpt serializeTimestamps e.timestamps)]

theorem parseElapsedTimeAttributes_roundtrip (e : ElapsedTimeAttributes) :
    parseElapsedTimeAttributes (serializeElapsedTimeAttributes e) = .ok e := by
  cases e
  simp [parseElapsedTimeAttributes, serializeElapsedTimeAttributes, optField]

/-- `models.ElapsedTimeModel`: the full `{id, type, attributes}` resource. -/
structure ElapsedTimeModel where
  id : String
  type : String
  attributes : ElapsedTimeAttributes

def parseElapsedTimeModel : Json → Except SchemaError ElapsedTimeModel
  | .obj kvs => do
    let id ← reqField "id" (decStr "id") kvs
    let type ← reqField "type" (decStr "type") kvs
    let attributes ← reqField "attributes" parseElapsedTimeAttributes kvs
    pure ⟨id, type, attributes⟩
  | _ => .error .notAnObject

def serializeElapsedTimeModel (m : ElapsedTimeModel) : Json :=
  .obj [("id", Json.str m.id),
        ("type", Json.str m.type),
        ("attributes", serializeElapsedTimeAttributes m.attributes)]

theorem parseElapsedTimeModel_roundtrip (m : ElapsedTimeModel) :
    parseElapsedTimeModel (serializeElapsedTimeModel m) = .ok m := by
  cases m
  simp [parseElapsedTimeModel, serializeElapsedTimeModel, optField, reqField,
        parseElapsedTimeAttributes_roundtrip]

/-! ### challonge.py: client construction (`Challonge.__init__`) -/

/-- Python truthiness of an optional string argument (`None` and `""` falsy). -/
def pyTruthy : Option String → Bool
  | none => false
  | some s => s != ""

/-- The headers `__init__` installs on the session before the credential. -/
def baseHeaders (authorization_type : String) : List (String × String) :=
  [("Content-Type", "application/vnd.api+json"),
   ("Accept", "application/json"),
   ("Authorization-Type", authorization_type),
   ("User-Agent", "ChallongePythonClient/1.0")]

/-- `dict.update` with a single key: replace in place, or append a new key. -/
def headersUpdate (hs : List (String × String)) (k v : String) : List (String × String) :=
  if hs.any (fun p => p.1 == k) then hs.map (fun p => if p.1 == k then (k, v) else p)
  else hs ++ [(k, v)]

/-- The `ValueError` message raised when neither credential branch applies. -/
def initErrorMsg : String :=
  "Must provide a valid api_key (for v1) or oauth_token (for v2) that matches the chosen authorization_type."

/-- `Challonge.__init__`: returns the session headers established at
construction, or the configuration `ValueError`. -/
def challongeInit (api_key oauth_token : Option String) (authorization_type : String) :
    Except ClientError (List (String × String)) :=
  let headers := baseHeaders authorization_type
  if authorization_type = "v1" ∧ pyTruthy api_key = true then
    .ok (headersUpdate headers "Authorization" (api_key.getD ""))
  else if authorization_type = "v2" ∧ pyTruthy oauth_token = true then
    .ok (headersUpdate headers "Authorization" ("Bearer " ++ oauth_token.getD ""))
  else
    .error (.configurationError initErrorMsg)

/-! ### challonge.py: the request dispatcher (`Challonge._request`) -/

/-- An HTTP response as `_request` observes it: status code, raw body, and the
outcome `response.json()` would have (an error when the body is not JSON).
Carrying the decode outcome as a field lets theorems quantify over it, which is
how "never attempts to decode" is expressed. -/
structure HttpResponse where
  status : Nat
  content : String
  jsonBody : Except Unit Json

/-- What the transport produces: a response, or a network-level failure
(DNS, connection reset, timeout — a `requests` exception). -/
inductive TransportOutcome where
  | failure
  | response (r : HttpResponse)

/-- `Challonge._request` after the single `session.request` call:
`raise_for_status` (4xx/5xx → `HTTPError` with the status and raw body), then
the 204/empty-body no-content check, then `response.json()`. Exactly one
transport outcome is consumed: the dispatcher never retries. -/
def challongeRequest (o : TransportOutcome) : Except ClientError (Option Json) :=
  match o with
  | .failure => .error .transportError
  | .response r =>
    if 400 ≤ r.status ∧ r.status < 600 then .error (.apiError r.status r.content)
    else if r.status = 204 ∨ r.content = "" then .ok none
    else
      match r.jsonBody with
      | .ok j => .ok (some j)
      | .error _ => .error .jsonDecodeError

/-! ### challonge.py: endpoint response handling -/

/-- Python `for item in x`: lists iterate elements, dicts iterate keys,
strings iterate one-character strings, everything else raises `TypeError`. -/
def pyIter : Json → Except ClientError (List Json)
  | .arr xs => .ok xs
  | .obj kvs => .ok (kvs.map fun kv => Json.str kv.1)
  | .str s => .ok (s.toList.map fun c => Json.str (String.singleton c))
  | _ => .error .typeError

/-- The collection pattern shared verbatim by `find_tournaments`,
`find_matches`, `find_participants`, `bulk_create_participants`,
`randomize_participants` and their community-scoped twins:
`if not resp: return []` then `[Model.parse_obj(item) for item in resp["data"]]`
(`resp["data"]` on a non-dict is a `TypeError`, a dict without `"data"` a
`KeyError`). -/
def data_collection {α : Type} (parse : Json → Except SchemaError α) (resp : Option Json) :
    Except ClientError (List α) :=
  match resp with
  | none => .ok []
  | some j =>
    if j.pyFalsy then .ok []
    else
      match j with
      | .obj kvs =>
        match jlookup "data" kvs with
        | some d => pyIter d >>= exMapM (fun i => (parse i).mapError ClientError.schema)
        | none => .error (.keyError "data")
      | _ => .error .typeError

/-- `Challonge.find_tournaments` applied to the dispatcher's result. -/
def find_tournaments (resp : Option Json) : Except ClientError (List TournamentModel) :=
  data_collection parseTournamentModel resp

/-- `Challonge.find_matches` applied to the dispatcher's result. -/
def find_matches (resp : Option Json) : Except ClientError (List MatchModel) :=
  data_collection parseMatchModel resp

/-- `Challonge.find_participants` applied to the dispatcher's result. -/
def find_participants (resp : Option Json) : Except ClientError (List ParticipantModel) :=
  data_collection parseParticipantModel resp

/-- `Challonge.bulk_create_participants` applied to the dispatcher's result. -/
def bulk_create_participants (resp : Option Json) : Except ClientError (List ParticipantModel) :=
  data_collection parseParticipantModel resp

/-- `Challonge.randomize_participants` applied to the dispatcher's result. -/
def randomize_participants (resp : Option Json) : Except ClientError (List ParticipantModel) :=
  data_collection parseParticipantModel resp

/-- `Challonge.find_community_tournaments` applied to the dispatcher's result. -/
def find_community_tournaments (resp : Option Json) : Except ClientError (List TournamentModel) :=
  data_collection parseTournamentModel resp

/-- `Challonge.find_community_matches` applied to the dispatcher's result. -/
def find_community_matches (resp : Option Json) : Except ClientError (List MatchModel) :=
  data_collection parseMatchModel resp

/-- `Challonge.find_community_participants` applied to the dispatcher's result. -/
def find_community_participants (resp : Option Json) :
    Except ClientError (List ParticipantModel) :=
  data_collection parseParticipantModel resp

/-- `Challonge.bulk_community_create_participant` applied to the dispatcher's result. -/
def bulk_community_create_participant (resp : Option Json) :
    Except ClientError (List ParticipantModel) :=
  data_collection parseParticipantModel resp

/-- `Challonge.randomize_community_participants` applied to the dispatcher's result. -/
def randomize_community_participants (resp : Option Json) :
    Except ClientError (List ParticipantModel) :=
  data_collection parseParticipantModel resp

/-- The request body `create_tournament` builds around the caller's attributes. -/
def create_tournament_payload (attrs : Json) : Json :=
  .obj [("data", .obj [("type", .str "Tournaments"), ("attributes", attrs)])]

/-- `Challonge.create_tournament` applied to the dispatcher's result:
`TournamentModel.parse_obj(resp["data"])` with no shape guard (`resp["data"]`
on `None` or a non-dict is a `TypeError`, on a dict without `"data"` a
`KeyError`). -/
def create_tournament (resp : Option Json) : Except ClientError TournamentModel :=
  match resp with
  | some (.obj kvs) =>
    match jlookup "data" kvs with
    | some d => (parseTournamentModel d).mapError ClientError.schema
    | none => .error (.keyError "data")
  | _ => .error .typeError

/-- `Challonge.create_participant` applied to the dispatcher's result:
a dict containing `"data"` is unwrapped and parsed; otherwise a non-empty list
has its first element parsed; every other shape raises the explicit
`ValueError`. -/
def create_participant (resp : Option Json) : Except ClientError ParticipantModel :=
  match resp with
  | some (.obj kvs) =>
    match jlookup "data" kvs with
    | some d => (parseParticipantModel d).mapError ClientError.schema
    | none => .error (.unexpectedShape "Unexpected response format for create_participant.")
  | some (.arr (x :: _)) => (parseParticipantModel x).mapError ClientError.schema
  | _ => .error (.unexpectedShape "Unexpected response format for create_participant.")

/-- `Challonge.create_community_participant` applied to the dispatcher's
result: the same shape handling as `create_participant`. -/
def create_community_participant (resp : Option Json) : Except ClientError ParticipantModel :=
  match resp with
  | some (.obj kvs) =>
    match jlookup "data" kvs with
    | some d => (parseParticipantModel d).mapError ClientError.schema
    | none =>
      .error (.unexpectedShape "Unexpected response format for create_community_participant.")
  | some (.arr (x :: _)) => (parseParticipantModel x).mapError ClientError.schema
  | _ => .error (.unexpectedShape "Unexpected response format for create_community_participant.")

/-! ### Claim theorems -/

theorem decStr_not_str (field : String) (j : Json) (h : ∀ s, j ≠ .str s) :
    decStr field j = .error (.wrongKind field) := by
  cases j <;> first | rfl | exact absurd rfl (h _)

/-- C1: for every resource type (Tournament, Match, Participant,
MatchAttachment, Race, Round, ElapsedTime, Community, User) and every value of
that type, parsing the JSON object obtained by serializing it gives back an
equal value, whichever optional fields are set or unset (an unset optional
field serializes to `null` and parses back to unset). -/
theorem claim_C1_roundtrip :
    (∀ x : TournamentModel, parseTournamentModel (serializeTournamentModel x) = .ok x) ∧
    (∀ x : MatchModel, parseMatchModel (serializeMatchModel x) = .ok x) ∧
    (∀ x : ParticipantModel, parseParticipantModel (serializeParticipantModel x) = .ok x) ∧
    (∀ x : MatchAttachmentModel,
        parseMatchAttachmentModel (serializeMatchAttachmentModel x) = .ok x) ∧
    (∀ x : RaceModel, parseRaceModel (serializeRaceModel x) = .ok x) ∧
    (∀ x : RoundModel, parseRoundModel (serializeRoundModel x) = .ok x) ∧
    (∀ x : ElapsedTimeModel, parseElapsedTimeModel (serializeElapsedTimeModel x) = .ok x) ∧
    (∀ x : CommunityModel, parseCommunityModel (serializeCommunityModel x) = .ok x) ∧
    (∀ x : UserModel, parseUserModel (serializeUserModel x) = .ok x) :=
  ⟨parseTournamentModel_roundtrip, parseMatchModel_roundtrip, parseParticipantModel_roundtrip,
   parseMatchAttachmentModel_roundtrip, parseRaceModel_roundtrip, parseRoundModel_roundtrip,
   parseElapsedTimeModel_roundtrip, parseCommunityModel_roundtrip, parseUserModel_roundtrip⟩

/-- The stubbed creation response of the C4 scenario. -/
def cupResponse : Json :=
  .obj [("data",
    .obj [("id", .str "42"), ("type", .str "tournament"),
          ("attributes",
            .obj [("name", .str "Cup"), ("tournament_type", .str "single elimination")])])]

/-- C4: creating a tournament with attributes
`{name: "Cup", tournament_type: "single elimination"}` and parsing the stubbed
response yields a Tournament with id `"42"` in which every unset optional
nested option block carries its declared default: the block fields
(`notifications`, `match_options`, ..., `free_for_all_options`) default to the
absent marker `None`, while the defaulted scalars `private` and
`group_stage_enabled` come back `False`. -/
theorem claim_C4_create_tournament :
    create_tournament (some cupResponse) =
      .ok ⟨"42", "tournament",
           ⟨"Cup", none, "single elimination", none, some false, none, none, none, none,
            none, none, none, some false, none, none, none, none, none, none⟩⟩ := rfl

/-- C6 counterexample: a 422 response with an empty body makes the dispatcher
fail with the HTTP error (status and raw body), not return no-content — the
claim, which covers every response with an empty body, says this yields
`NoContent`. -/
theorem claim_C6_counterexample :
    challongeRequest (.response ⟨422, "", .error ()⟩) = .error (.apiError 422 "") := rfl

/-- C6 (amended): for every response that passes the status check (not
4xx/5xx) and has status 204 or an empty body, the dispatcher returns
no-content; the result is the same for every value of the body's JSON-decode
outcome, i.e. the body is never decoded. -/
theorem claim_C6_no_content (status : Nat) (content : String) (jsonBody : Except Unit Json)
    (hok : ¬(400 ≤ status ∧ status < 600)) (hempty : status = 204 ∨ content = "") :
    challongeRequest (.response ⟨status, content, jsonBody⟩) = .ok none := by
  simp [challongeRequest, hok, hempty]

theorem claim_C6_witness :
    challongeRequest (.response ⟨204, "ignored", .ok Json.null⟩) = .ok none :=
  claim_C6_no_content 204 "ignored" (.ok Json.null) (by decide) (Or.inl rfl)

/-- C7: every 4xx/5xx response makes the dispatcher fail with `ApiError`
carrying that status and the raw body, a failure kind distinct from the
transport-failure kind; the dispatcher consumes exactly one transport outcome,
so no retry happens. -/
theorem claim_C7_api_error :
    (∀ (status : Nat) (content : String) (jsonBody : Except Unit Json),
        400 ≤ status → status < 600 →
        challongeRequest (.response ⟨status, content, jsonBody⟩) =
          .error (.apiError status content)) ∧
    challongeRequest .failure = .error .transportError ∧
    (∀ (status : Nat) (body : String),
        ClientError.apiError status body ≠ ClientError.transportError) := by
  refine ⟨?_, rfl, ?_⟩
  · intro s c jb h1 h2
    simp [challongeRequest, h1, h2]
  · intro s b h
    exact ClientError.noConfusion h

theorem claim_C7_witness :
    challongeRequest (.response ⟨422, "unprocessable", .error ()⟩) =
      .error (.apiError 422 "unprocessable") :=
  claim_C7_api_error.1 422 "unprocessable" (.error ()) (by decide) (by decide)

/-- C8: construction with a credential matching the chosen scheme succeeds and
installs the corresponding `Authorization` header (the raw key for `v1`, a
bearer token for `v2`); construction where neither scheme/credential pair
matches — no credential, or a credential for the other scheme — fails with the
configuration `ValueError`. -/
theorem claim_C8_auth :
    (∀ (k : String) (t : Option String), k ≠ "" →
        challongeInit (some k) t "v1" = .ok (baseHeaders "v1" ++ [("Authorization", k)])) ∧
    (∀ (a : Option String) (tok : String), tok ≠ "" →
        challongeInit a (some tok) "v2" =
          .ok (baseHeaders "v2" ++ [("Authorization", "Bearer " ++ tok)])) ∧
    (∀ (api_key oauth_token : Option String) (authorization_type : String),
        ¬(authorization_type = "v1" ∧ pyTruthy api_key = true) →
        ¬(authorization_type = "v2" ∧ pyTruthy oauth_token = true) →
        challongeInit api_key oauth_token authorization_type =
          .error (.configurationError initErrorMsg)) := by
  refine ⟨?_, ?_, ?_⟩
  · intro k t hk
    simp [challongeInit, pyTruthy, hk, headersUpdate, baseHeaders]
  · intro a tok htok
    have hv : ¬("v2" = "v1" ∧ pyTruthy a = true) := by simp
    simp [challongeInit, pyTruthy, htok, hv, headersUpdate, baseHeaders]
  · intro ak ot aty h1 h2
    simp [challongeInit, h1, h2]

theorem claim_C8_witness :
    challongeInit (some "k123") none "v1" =
        .ok (baseHeaders "v1" ++ [("Authorization", "k123")]) ∧
    challongeInit none (some "tok") "v2" =
        .ok (baseHeaders "v2" ++ [("Authorization", "Bearer " ++ "tok")]) ∧
    challongeInit none none "v1" = .error (.configurationError initErrorMsg) :=
  ⟨claim_C8_auth.1 "k123" none (by decide),
   claim_C8_auth.2.1 none "tok" (by decide),
   claim_C8_auth.2.2 none none "v1" (by decide) (by decide)⟩

/-- C10: every collection-returning operation (`find_tournaments`,
`find_matches`, `find_participants`, `bulk_create_participants`,
`randomize_participants` and the community-scoped variants) returns the empty
sequence, rather than failing, when the dispatcher yields no content. -/
theorem claim_C10_empty_collections :
    find_tournaments none = .ok [] ∧
    find_matches none = .ok [] ∧
    find_participants none = .ok [] ∧
    bulk_create_participants none = .ok [] ∧
    randomize_participants none = .ok [] ∧
    find_community_tournaments none = .ok [] ∧
    find_community_matches none = .ok [] ∧
    find_community_participants none = .ok [] ∧
    bulk_community_create_participant none = .ok [] ∧
    randomize_community_participants none = .ok [] :=
  ⟨rfl, rfl, rfl, rfl, rfl, rfl, rfl, rfl, rfl, rfl⟩

/-- C2: a raw object missing a required field never parses into a record — a
Tournament resource whose attributes lack `name` fails with the missing-field
validation error, and for every resource model a missing `id`, or an `id`
that is not a string, fails likewise. -/
theorem claim_C2_required_fields :
    (∀ (i t : String) (attrs : List (String × Json)), jlookup "name" attrs = none →
        parseTournamentModel
          (.obj [("id", .str i), ("type", .str t), ("attributes", .obj attrs)]) =
          .error (.missingField "name")) ∧
    ((∀ kvs, jlookup "id" kvs = none →
        parseTournamentModel (.obj kvs) = .error (.missingField "id")) ∧
     (∀ kvs, jlookup "id" kvs = none →
        parseMatchModel (.obj kvs) = .error (.missingField "id")) ∧
     (∀ kvs, jlookup "id" kvs = none →
        parseParticipantModel (.obj kvs) = .error (.missingField "id")) ∧
     (∀ kvs, jlookup "id" kvs = none →
        parseMatchAttachmentModel (.obj kvs) = .error (.missingField "id")) ∧
     (∀ kvs, jlookup "id" kvs = none →
        parseRaceModel (.obj kvs) = .error (.missingField "id")) ∧
     (∀ kvs, jlookup "id" kvs = none →
        parseRoundModel (.obj kvs) = .error (.missingField "id")) ∧
     (∀ kvs, jlookup "id" kvs = none →
        parseElapsedTimeModel (.obj kvs) = .error (.missingField "id")) ∧
     (∀ kvs, jlookup "id" kvs = none →
        parseCommunityModel (.obj kvs) = .error (.missingField "id")) ∧
     (∀ kvs, jlookup "id" kvs = none →
        parseUserModel (.obj kvs) = .error (.missingField "id"))) ∧
    ((∀ kvs j, jlookup "id" kvs = some j → (∀ s, j ≠ .str s) →
        parseTournamentModel (.obj kvs) = .error (.wrongKind "id")) ∧
     (∀ kvs j, jlookup "id" kvs = some j → (∀ s, j ≠ .str s) →
        parseMatchModel (.obj kvs) = .error (.wrongKind "id")) ∧
     (∀ kvs j, jlookup "id" kvs = some j → (∀ s, j ≠ .str s) →
        parseParticipantModel (.obj kvs) = .error (.wrongKind "id")) ∧
     (∀ kvs j, jlookup "id" kvs = some j → (∀ s, j ≠ .str s) →
        parseMatchAttachmentModel (.obj kvs) = .error (.wrongKind "id")) ∧
     (∀ kvs j, jlookup "id" kvs = some j → (∀ s, j ≠ .str s) →
        parseRaceModel (.obj kvs) = .error (.wrongKind "id")) ∧
     (∀ kvs j, jlookup "id" kvs = some j → (∀ s, j ≠ .str s) →
        parseRoundModel (.obj kvs) = .error (.wrongKind "id")) ∧
     (∀ kvs j, jlookup "id" kvs = some j → (∀ s, j ≠ .str s) →
        parseElapsedTimeModel (.obj kvs) = .error (.wrongKind "id")) ∧
     (∀ kvs j, jlookup "id" kvs = some j → (∀ s, j ≠ .str s) →
        parseCommunityModel (.obj kvs) = .error (.wrongKind "id")) ∧
     (∀ kvs j, jlookup "id" kvs = some j → (∀ s, j ≠ .str s) →
        parseUserModel (.obj kvs) = .error (.wrongKind "id"))) := by
  refine ⟨?_, ⟨?_, ?_, ?_, ?_, ?_, ?_, ?_, ?_, ?_⟩, ⟨?_, ?_, ?_, ?_, ?_, ?_, ?_, ?_, ?_⟩⟩
  · intro i t attrs h
    simp [parseTournamentModel, parseTournamentAttributes, reqField, h]
  · intro kvs h; simp [parseTournamentModel, reqField, h]
  · intro kvs h; simp [parseMatchModel, reqField, h]
  · intro kvs h; simp [parseParticipantModel, reqField, h]
  · intro kvs h; simp [parseMatchAttachmentModel, reqField, h]
  · intro kvs h; simp [parseRaceModel, reqField, h]
  · intro kvs h; simp [parseRoundModel, reqField, h]
  · intro kvs h; simp [parseElapsedTimeModel, reqField, h]
  · intro kvs h; simp [parseCommunityModel, reqField, h]
  · intro kvs h; simp [parseUserModel, reqField, h]
  · intro kvs j hj hns; simp [parseTournamentModel, reqField, hj, decStr_not_str "id" j hns]
  · intro kvs j hj hns; simp [parseMatchModel, reqField, hj, decStr_not_str "id" j hns]
  · intro kvs j hj hns; simp [parseParticipantModel, reqField, hj, decStr_not_str "id" j hns]
  · intro kvs j hj hns; simp [parseMatchAttachmentModel, reqField, hj, decStr_not_str "id" j hns]
  · intro kvs j hj hns; simp [parseRaceModel, reqField, hj, decStr_not_str "id" j hns]
  · intro kvs j hj hns; simp [parseRoundModel, reqField, hj, decStr_not_str "id" j hns]
  · intro kvs j hj hns; simp [parseElapsedTimeModel, reqField, hj, decStr_not_str "id" j hns]
  · intro kvs j hj hns; simp [parseCommunityModel, reqField, hj, decStr_not_str "id" j hns]
  · intro kvs j hj hns; simp [parseUserModel, reqField, hj, decStr_not_str "id" j hns]

theorem claim_C2_witness :
    parseTournamentModel (.obj [("id", .str "1"), ("type", .str "tournament"),
        ("attributes", .obj [])]) = .error (.missingField "name") ∧
    parseUserModel (.obj []) = .error (.missingField "id") ∧
    parseMatchModel (.obj [("id", .int 7)]) = .error (.wrongKind "id") :=
  ⟨claim_C2_required_fields.1 "1" "tournament" [] rfl,
   claim_C2_required_fields.2.1.2.2.2.2.2.2.2.2 [] rfl,
   claim_C2_required_fields.2.2.2.1 [("id", .int 7)] (.int 7) rfl
     (fun _ h => Json.noConfusion h)⟩

/-- A valid bare participant resource object, with no `data` wrapper. -/
def bareParticipant : Json :=
  .obj [("id", .str "7"), ("type", .str "participant"),
        ("attributes", .obj [("name", .str "Alice")])]

/-- C3 counterexample: `create_participant` never accepts a bare object — a
raw response that is itself a valid participant resource (parsed successfully
by the model, second conjunct) is rejected with the unexpected-format error
(first conjunct), while the claim's order (bare object tried first) requires
it to be accepted. -/
theorem claim_C3_counterexample :
    create_participant (some bareParticipant) =
      .error (.unexpectedShape "Unexpected response format for create_participant.") ∧
    parseParticipantModel bareParticipant =
      .ok ⟨"7", "participant", ⟨some "Alice", none, none, none, none, none, none, none⟩⟩ :=
  ⟨rfl, rfl⟩

/-- C3 (amended): for participant creation the codec tries the response as an
object enveloped under `data` first, then as the first element of a non-empty
array, in that order; a bare object (no `data` key), an empty array, and an
absent body all fail with the endpoint's unexpected-format error. -/
theorem claim_C3_envelope_order :
    ((∀ (kvs : List (String × Json)) (d : Json), jlookup "data" kvs = some d →
        create_participant (some (.obj kvs)) =
          (parseParticipantModel d).mapError ClientError.schema) ∧
     (∀ (x : Json) (xs : List Json),
        create_participant (some (.arr (x :: xs))) =
          (parseParticipantModel x).mapError ClientError.schema) ∧
     (∀ kvs, jlookup "data" kvs = none →
        create_participant (some (.obj kvs)) =
          .error (.unexpectedShape "Unexpected response format for create_participant.")) ∧
     create_participant (some (.arr [])) =
       .error (.unexpectedShape "Unexpected response format for create_participant.") ∧
     create_participant none =
       .error (.unexpectedShape "Unexpected response format for create_participant.")) ∧
    ((∀ (kvs : List (String × Json)) (d : Json), jlookup "data" kvs = some d →
        create_community_participant (some (.obj kvs)) =
          (parseParticipantModel d).mapError ClientError.schema) ∧
     (∀ (x : Json) (xs : List Json),
        create_community_participant (some (.arr (x :: xs))) =
          (parseParticipantModel x).mapError ClientError.schema) ∧
     (∀ kvs, jlookup "data" kvs = none →
        create_community_participant (some (.obj kvs)) =
          .error
            (.unexpectedShape "Unexpected response format for create_community_participant.")) ∧
     create_community_participant (some (.arr [])) =
       .error (.unexpectedShape "Unexpected response format for create_community_participant.") ∧
     create_community_participant none =
       .error
         (.unexpectedShape "Unexpected response format for create_community_participant.")) := by
  refine ⟨⟨?_, ?_, ?_, rfl, rfl⟩, ⟨?_, ?_, ?_, rfl, rfl⟩⟩
  · intro kvs d h; simp [create_participant, h]
  · intro x xs; rfl
  · intro kvs h; simp [create_participant, h]
  · intro kvs d h; simp [create_community_participant, h]
  · intro x xs; rfl
  · intro kvs h; simp [create_community_participant, h]

theorem claim_C3_witness :
    create_participant (some (.obj [("data",
        .obj [("id", .str "9"), ("type", .str "participant"), ("attributes", .obj [])])])) =
      (parseParticipantModel
        (.obj [("id", .str "9"), ("type", .str "participant"),
               ("attributes", .obj [])])).mapError ClientError.schema :=
  claim_C3_envelope_order.1.1 _ _ rfl

/-- A raw participant resource item for the bulk-creation scenarios. -/
def pRaw (i nm : String) : Json :=
  .obj [("id", .str i), ("type", .str "participant"), ("attributes", .obj [("name", .str nm)])]

/-- C5 counterexample: the same three valid participant items decode to three
records when nested under `data` (first conjunct), but as a bare array the
operation fails with a `TypeError` (`resp["data"]` on a list) instead of
returning the three records the claim requires (second conjunct). -/
theorem claim_C5_counterexample :
    bulk_create_participants
        (some (.obj [("data", .arr [pRaw "1" "Alice", pRaw "2" "Bob", pRaw "3" "Carol"])])) =
      .ok [⟨"1", "participant", ⟨some "Alice", none, none, none, none, none, none, none⟩⟩,
           ⟨"2", "participant", ⟨some "Bob", none, none, none, none, none, none, none⟩⟩,
           ⟨"3", "participant", ⟨some "Carol", none, none, none, none, none, none, none⟩⟩] ∧
    bulk_create_participants
        (some (.arr [pRaw "1" "Alice", pRaw "2" "Bob", pRaw "3" "Carol"])) =
      .error .typeError :=
  ⟨rfl, rfl⟩

/-- C5 (amended): a bulk participant creation whose response nests an array of
3 items under `data` returns exactly those 3 Participant records in submission
order (also for the community-scoped variant); a bare (non-empty) array
response fails with a `TypeError`, and an absent response yields `[]`. -/
theorem claim_C5_bulk_create (i1 i2 i3 : Json) (p1 p2 p3 : ParticipantModel)
    (h1 : parseParticipantModel i1 = .ok p1) (h2 : parseParticipantModel i2 = .ok p2)
    (h3 : parseParticipantModel i3 = .ok p3) :
    bulk_create_participants (some (.obj [("data", .arr [i1, i2, i3])])) = .ok [p1, p2, p3] ∧
    bulk_community_create_participant (some (.obj [("data", .arr [i1, i2, i3])])) =
      .ok [p1, p2, p3] ∧
    (∀ (x : Json) (xs : List Json),
        bulk_create_participants (some (.arr (x :: xs))) = .error .typeError) := by
  refine ⟨?_, ?_, ?_⟩
  · simp [bulk_create_participants, data_collection, Json.pyFalsy, pyIter, exMapM, h1, h2, h3]
  · simp [bulk_community_create_participant, data_collection, Json.pyFalsy, pyIter, exMapM,
          h1, h2, h3]
  · intro x xs
    simp [bulk_create_participants, data_collection, Json.pyFalsy]

theorem claim_C5_witness :
    bulk_create_participants
        (some (.obj [("data", .arr [pRaw "4" "Dee", pRaw "5" "Eli", pRaw "6" "Fay"])])) =
      .ok [⟨"4", "participant", ⟨some "Dee", none, none, none, none, none, none, none⟩⟩,
           ⟨"5", "participant", ⟨some "Eli", none, none, none, none, none, none, none⟩⟩,
           ⟨"6", "participant", ⟨some "Fay", none, none, none, none, none, none, none⟩⟩] :=
  (claim_C5_bulk_create (pRaw "4" "Dee") (pRaw "5" "Eli") (pRaw "6" "Fay")
    _ _ _ rfl rfl rfl).1

/-- The declared wire field names of each attribute schema. -/
def tournamentAttributeKeys : List String :=
  ["name", "url", "tournament_type", "game_name", "private", "starts_at", "description",
   "notifications", "match_options", "registration_options", "seeding_options",
   "station_options", "group_stage_enabled", "group_stage_options",
   "double_elimination_options", "round_robin_options", "swiss_options",
   "free_for_all_options", "timestamps"]

def matchAttributeKeys : List String :=
  ["state", "round", "identifier", "suggested_play_order", "scores", "score_in_sets",
   "points_by_participant", "timestamps", "winner_id"]

def participantAttributeKeys : List String :=
  ["name", "seed", "group_id", "username", "final_rank", "states", "misc", "timestamps"]

def matchAttachmentAttributeKeys : List String := ["id", "url", "description", "timestamps"]

def raceAttributeKeys : List String :=
  ["name", "url", "raceType", "description", "private", "currentLap", "notifications",
   "registrationOptions", "grandPrixOptions", "timestamps"]

def roundAttributeKeys : List String := ["round", "state", "timestamps"]

def elapsedTimeAttributeKeys : List String :=
  ["elapsedTime", "points", "rank", "formattedTime", "timestamps"]

def communityAttributeKeys : List String :=
  ["permalink", "subdomain", "identifier", "name", "description", "timestamps"]

def userAttributeKeys : List String := ["email", "username", "image_url"]

/-- C9: for every resource type, parsing an attributes object that carries an
extra field whose key is not in the declared schema gives exactly the same
result as parsing the object without that field — unknown wire fields are
ignored, and in particular cannot make a parse that would succeed fail. -/
theorem claim_C9_extra_fields_ignored :
    (∀ (k : String) (v : Json) (kvs : List (String × Json)), k ∉ tournamentAttributeKeys →
        parseTournamentAttributes (.obj ((k, v) :: kvs)) =
          parseTournamentAttributes (.obj kvs)) ∧
    (∀ (k : String) (v : Json) (kvs : List (String × Json)), k ∉ matchAttributeKeys →
        parseMatchAttributes (.obj ((k, v) :: kvs)) = parseMatchAttributes (.obj kvs)) ∧
    (∀ (k : String) (v : Json) (kvs : List (String × Json)), k ∉ participantAttributeKeys →
        parseParticipantOutput (.obj ((k, v) :: kvs)) = parseParticipantOutput (.obj kvs)) ∧
    (∀ (k : String) (v : Json) (kvs : List (String × Json)), k ∉ matchAttachmentAttributeKeys →
        parseMatchAttachmentOutput (.obj ((k, v) :: kvs)) =
          parseMatchAttachmentOutput (.obj kvs)) ∧
    (∀ (k : String) (v : Json) (kvs : List (String × Json)), k ∉ raceAttributeKeys →
        parseRaceAttributes (.obj ((k, v) :: kvs)) = parseRaceAttributes (.obj kvs)) ∧
    (∀ (k : String) (v : Json) (kvs : List (String × Json)), k ∉ roundAttributeKeys →
        parseRoundAttributes (.obj ((k, v) :: kvs)) = parseRoundAttributes (.obj kvs)) ∧
    (∀ (k : String) (v : Json) (kvs : List (String × Json)), k ∉ elapsedTimeAttributeKeys →
        parseElapsedTimeAttributes (.obj ((k, v) :: kvs)) =
          parseElapsedTimeAttributes (.obj kvs)) ∧
    (∀ (k : String) (v : Json) (kvs : List (String × Json)), k ∉ communityAttributeKeys →
        parseCommunity (.obj ((k, v) :: kvs)) = parseCommunity (.obj kvs)) ∧
    (∀ (k : String) (v : Json) (kvs : List (String × Json)), k ∉ userAttributeKeys →
        parseUser (.obj ((k, v) :: kvs)) = parseUser (.obj kvs)) := by
  refine ⟨?_, ?_, ?_, ?_, ?_, ?_, ?_, ?_, ?_⟩
  · intro k v kvs h
    simp [tournamentAttributeKeys] at h
    obtain ⟨h1, h2, h3, h4, h5, h6, h7, h8, h9, h10, h11, h12, h13, h14, h15, h16, h17, h18,
            h19⟩ := h
    simp [parseTournamentAttributes, optField, reqField, h1, h2, h3, h4, h5, h6, h7, h8, h9,
          h10, h11, h12, h13, h14, h15, h16, h17, h18, h19]
  · intro k v kvs h
    simp [matchAttributeKeys] at h
    obtain ⟨h1, h2, h3, h4, h5, h6, h7, h8, h9⟩ := h
    simp [parseMatchAttributes, optField, h1, h2, h3, h4, h5, h6, h7, h8, h9]
  · intro k v kvs h
    simp [participantAttributeKeys] at h
    obtain ⟨h1, h2, h3, h4, h5, h6, h7, h8⟩ := h
    simp [parseParticipantOutput, optField, h1, h2, h3, h4, h5, h6, h7, h8]
  · intro k v kvs h
    simp [matchAttachmentAttributeKeys] at h
    obtain ⟨h1, h2, h3, h4⟩ := h
    simp [parseMatchAttachmentOutput, optField, h1, h2, h3, h4]
  · intro k v kvs h
    simp [raceAttributeKeys] at h
    obtain ⟨h1, h2, h3, h4, h5, h6, h7, h8, h9, h10⟩ := h
    simp [parseRaceAttributes, optField, h1, h2, h3, h4, h5, h6, h7, h8, h9, h10]
  · intro k v kvs h
    simp [roundAttributeKeys] at h
    obtain ⟨h1, h2, h3⟩ := h
    simp [parseRoundAttributes, optField, h1, h2, h3]
  · intro k v kvs h
    simp [elapsedTimeAttributeKeys] at h
    obtain ⟨h1, h2, h3, h4, h5⟩ := h
    simp [parseElapsedTimeAttributes, optField, h1, h2, h3, h4, h5]
  · intro k v kvs h
    simp [communityAttributeKeys] at h
    obtain ⟨h1, h2, h3, h4, h5, h6⟩ := h
    simp [parseCommunity, optField, h1, h2, h3, h4, h5, h6]
  · intro k v kvs h
    simp [userAttributeKeys] at h
    obtain ⟨h1, h2, h3⟩ := h
    simp [parseUser, optField, h1, h2, h3]

theorem claim_C9_witness :
    parseTournamentAttributes
        (.obj [("zzz_unknown", .int 1), ("name", .str "X"), ("tournament_type", .str "swiss")]) =
      parseTournamentAttributes (.obj [("name", .str "X"), ("tournament_type", .str "swiss")]) :=
  claim_C9_extra_fields_ignored.1 "zzz_unknown" (.int 1)
    [("name", .str "X"), ("tournament_type", .str "swiss")] (by decide)
